import Mathlib

/-!
Verification of the Recon repository: a shallow embedding of the observer
frontend (src/frontend/src/App.jsx) and of the session-orchestration core
specified by the design document, together with theorems settling the
frozen claims about the system.
-/

namespace Recon

/-! ## Observer model, embedded from src/frontend/src/App.jsx -/

/-- One entry of the observer log list, as built by addLog in App.jsx:
a type tag, the displayed content, and a wall-clock timestamp string. -/
structure LogItem where
  type : String
  content : String
  timestamp : String
deriving DecidableEq

/-- A WebSocket handle: an identity and its readyState code, as in the
browser WebSocket API (OPEN = 1). -/
structure WebSocketConn where
  id : Nat
  readyState : Nat
deriving DecidableEq

/-- The browser constant WebSocket.OPEN. -/
def WS_OPEN : Nat := 1

/-- The React state of the App component in App.jsx: connected flag, log
list, selected image file, preview URL, zoomed (derived) image URL,
loading flag, auto-scroll flag, and the wsRef current socket. -/
structure ObserverState where
  connected : Bool
  logs : List LogItem
  imageFile : Option String
  previewUrl : Option String
  zoomedImage : Option String
  loading : Bool
  autoScroll : Bool
  ws : Option WebSocketConn
deriving DecidableEq

/-- addLog from App.jsx: appends one entry carrying the given type tag and
content to the log list; the timestamp is the current clock reading,
passed here as an explicit argument. -/
def addLog (t c ts : String) (s : ObserverState) : ObserverState :=
  { s with logs := s.logs ++ [LogItem.mk t c ts] }

/-- A parsed message received on the WebSocket, as read by ws.onmessage in
App.jsx after JSON.parse: an event type tag, a content field, and a url
field (used by new_image events). -/
structure ServerMessage where
  type : String
  content : String
  url : String
deriving DecidableEq

/-- The server origin against which relative derived-image URLs are
resolved in App.jsx. -/
def serverOrigin : String := "http://localhost:8000"

/-- ws.onmessage from App.jsx: dispatch on the event type. A new_image
event stores the origin-resolved URL as the zoomed image and logs a
tool_result entry; a session_end event ends loading and logs a system
entry with the event content; any other event logs one entry of its own
type with its content. -/
def onmessage (ts : String) (msg : ServerMessage) (s : ObserverState) : ObserverState :=
  if msg.type = "new_image" then
    addLog "tool_result" "Received High-Res Crop." ts
      { s with zoomedImage := some (serverOrigin ++ msg.url) }
  else if msg.type = "session_end" then
    addLog "system" msg.content ts { s with loading := false }
  else
    addLog msg.type msg.content ts s

/-- The single log entry that processing one WebSocket message appends,
read off the branches of ws.onmessage. -/
def logEntryOf (ts : String) (msg : ServerMessage) : LogItem :=
  if msg.type = "new_image" then LogItem.mk "tool_result" "Received High-Res Crop." ts
  else if msg.type = "session_end" then LogItem.mk "system" msg.content ts
  else LogItem.mk msg.type msg.content ts

/-- Processing a sequence of incoming WebSocket messages in arrival order,
each paired with the clock reading at its arrival. -/
def processMessages (msgs : List (String × ServerMessage)) (s : ObserverState) : ObserverState :=
  msgs.foldl (fun st p => onmessage p.1 p.2 st) s

/-- connect from App.jsx: if the current socket exists and is OPEN, return
at once; otherwise create a fresh socket and store it in wsRef. The Bool
records whether a new socket was created. -/
def connect (fresh : WebSocketConn) (s : ObserverState) : ObserverState × Bool :=
  match s.ws with
  | some w =>
    if w.readyState = WS_OPEN then (s, false)
    else ({ s with ws := some fresh }, true)
  | none => ({ s with ws := some fresh }, true)

/-- ws.onopen from App.jsx: set connected and clear the logs. -/
def onopen (s : ObserverState) : ObserverState :=
  { s with connected := true, logs := [] }

/-- ws.onclose from App.jsx: clear connected, log an error entry, end
loading. -/
def onclose (ts : String) (s : ObserverState) : ObserverState :=
  addLog "error" "Connection Lost. Reconnect required." ts
    { s with connected := false, loading := false }

/-- Outcome of the HTTP POST to the upload boundary, as observed by
startInvestigation: either the file_path field of the JSON response, or a
fetch/parse failure. -/
inductive UploadOutcome
  | success (file_path : String)
  | failure
deriving DecidableEq

/-- The session-start message the observer sends over the WebSocket: a
JSON object with a single file_path field. -/
structure SessionStartMsg where
  file_path : String
deriving DecidableEq

/-- An outward-facing action the observer performs during
startInvestigation, in the order performed. -/
inductive ObserverAction
  | httpUpload (file : String)
  | wsSend (msg : SessionStartMsg)
deriving DecidableEq

/-- The synchronous first phase of startInvestigation in App.jsx, run
after the guard and before the upload request is issued: set loading,
clear the logs for a fresh start, clear the previous zoom. -/
def startInvestigationBegin (s : ObserverState) : ObserverState :=
  { s with loading := true, logs := [], zoomedImage := none }

/-- startInvestigation from App.jsx. If no image is selected or the
connection flag is down, return with no action. Otherwise reset the
session view, POST the image to the upload boundary and, on success, send
the returned file_path over the WebSocket; on upload failure log an error
and end loading. Returns the resulting state and the outward actions in
order. -/
def startInvestigation (outcome : UploadOutcome) (ts : String) (s : ObserverState) :
    ObserverState × List ObserverAction :=
  match s.imageFile with
  | none => (s, [])
  | some file =>
    if s.connected then
      let s1 := startInvestigationBegin s
      match outcome with
      | UploadOutcome.success fp =>
        (s1, [ObserverAction.httpUpload file, ObserverAction.wsSend (SessionStartMsg.mk fp)])
      | UploadOutcome.failure =>
        (addLog "error" "Upload Failed." ts { s1 with loading := false },
         [ObserverAction.httpUpload file])
    else (s, [])

/-- A concrete observer state used to exercise the theorems: connected,
with an image selected, an open socket, one log entry and a previously
zoomed image. -/
def sampleObserver : ObserverState :=
  ObserverState.mk true [LogItem.mk "system" "boot" "t0"] (some "street.jpg")
    (some "blob:street.jpg") (some "http://localhost:8000/crops/0.png") false true
    (some (WebSocketConn.mk 0 1))

/-! ## Orchestration core

The backend (Session Orchestrator, Tool Registry, crop coordinate logic)
is not present under src/; the definitions below are modelled from the
design document that specifies it. -/

/-- Modelled from the spec: a rectangular pixel region given by its
corner and extent, per axis. Coordinates are rationals so the
proportional mapping is exact. -/
structure Region where
  x : ℚ
  y : ℚ
  w : ℚ
  h : ℚ
deriving DecidableEq

/-- Modelled from the spec: an ImageReference, a handle to image bytes
plus its pixel dimensions. -/
structure ImageRef where
  path : String
  width : ℚ
  height : ℚ
deriving DecidableEq

/-- Modelled from the spec: the proportional coordinate mapping
true_coord = model_coord * (true_dimension / shown_dimension). -/
def rescaleCoord (shownDim trueDim c : ℚ) : ℚ := c * (trueDim / shownDim)

/-- Modelled from the spec: the proportional mapping applied
independently per axis to a model-space region, yielding true pixel
coordinates. -/
def rescaleRegion (shownW shownH trueW trueH : ℚ) (r : Region) : Region :=
  Region.mk (rescaleCoord shownW trueW r.x) (rescaleCoord shownH trueH r.y)
    (rescaleCoord shownW trueW r.w) (rescaleCoord shownH trueH r.h)

/-- Modelled from the spec: clamping of the rescaled region to the image
bounds, with negative or degenerate regions clamped to a minimum 1-pixel
extent so the crop never exceeds the source dimensions and never yields
an empty image. -/
def clampRegion (trueW trueH : ℚ) (r : Region) : Region :=
  Region.mk (max 0 (min r.x (trueW - 1))) (max 0 (min r.y (trueH - 1)))
    (max 1 (min r.w (trueW - max 0 (min r.x (trueW - 1)))))
    (max 1 (min r.h (trueH - max 0 (min r.y (trueH - 1)))))

/-- Modelled from the spec: the pixel region the crop tool actually
executes for a model-space request, given the dimensions the source was
shown at: rescale per axis, then clamp to the source bounds. -/
def cropExecutedRegion (shownW shownH : ℚ) (src : ImageRef) (r : Region) : Region :=
  clampRegion src.width src.height (rescaleRegion shownW shownH src.width src.height r)

/-- Modelled from the spec: a ToolResult, carrying the originating tool
name, a success flag and a payload. -/
structure ToolResult where
  tool : String
  success : Bool
  payload : String
deriving DecidableEq

/-- Modelled from the spec: the crop tool. It derives a new ImageReference
whose dimensions are the clamped executed extent; it always succeeds
(failures of the crop are absorbed by clamping), so the session never
fails on a crop. -/
def cropTool (shownW shownH : ℚ) (src : ImageRef) (r : Region) : ToolResult × ImageRef :=
  let er := cropExecutedRegion shownW shownH src r
  (ToolResult.mk "crop" true "cropped", ImageRef.mk (src.path ++ "_crop") er.w er.h)

/-- Modelled from the spec: a ToolCallRequest, a tool name with a mapping
of named arguments (rendered as key/value strings). -/
structure ToolCallRequest where
  name : String
  args : List (String × String)
deriving DecidableEq

/-- Modelled from the spec: one turn of the conversation history, a role
tag with content. -/
structure Turn where
  role : String
  content : String
deriving DecidableEq

/-- Modelled from the spec: the states of the Session Orchestrator state
machine. -/
inductive SessionState
  | Idle
  | AwaitingModel
  | DispatchingTool
  | Complete
  | Failed
  | Aborted
deriving DecidableEq

/-- Modelled from the spec: the orchestrator-owned session: append-only
conversation history, current state, and the count of model calls made
(the turn counter checked against the configured limit). -/
structure OrchSession where
  history : List Turn
  state : SessionState
  turnCount : Nat
deriving DecidableEq

/-- Modelled from the spec: a TranscriptEvent, an event kind tag with
content, pushed to the Transcript Streamer. -/
structure TranscriptEvent where
  kind : String
  content : String
deriving DecidableEq

/-- Modelled from the spec: the names known to the Tool Registry (the
zoom/crop tool and the search/verify tool). -/
def knownToolNames : List String := ["crop", "search"]

/-- Modelled from the spec: registry execution. A known tool runs its
capability (passed in as exec); an unknown tool name synthesizes a
ToolResult marked failure with an explanatory payload instead of
raising. -/
def executeTool (exec : String → List (String × String) → ToolResult)
    (req : ToolCallRequest) : ToolResult :=
  if req.name ∈ knownToolNames then exec req.name req.args
  else ToolResult.mk req.name false ("Unknown tool: " ++ req.name)

/-- Modelled from the spec: the DispatchingTool transition. Exactly one
ToolResult is produced for the request; a tool turn carrying it is
appended, a tool_result event is emitted (plus a new_image event for a
successful crop), and the session returns to AwaitingModel. Returns the
updated session, the emitted events in order, and the list of
ToolResults produced. -/
def dispatchTool (exec : String → List (String × String) → ToolResult)
    (req : ToolCallRequest) (sess : OrchSession) :
    OrchSession × List TranscriptEvent × List ToolResult :=
  let res := executeTool exec req
  ({ sess with history := sess.history ++ [Turn.mk "tool" res.payload],
               state := SessionState.AwaitingModel },
   TranscriptEvent.mk "tool_result" res.payload ::
     (if req.name = "crop" ∧ res.success = true
      then [TranscriptEvent.mk "new_image" res.payload] else []),
   [res])

/-- Modelled from the spec: one Model Client response: free-text
reasoning, a structured tool-call request, or a model failure after the
retry budget. -/
inductive ModelResponse
  | text (t : String)
  | toolCall (req : ToolCallRequest)
  | modelError
deriving DecidableEq

/-- Modelled from the spec: the turn loop, driven by the remaining turn
budget (the configured maximum minus the turn counter). When the budget
is exhausted the loop forces the session to Failed (turn limit
exceeded); otherwise it makes one model call, numbered by the current
turn counter, and acts on the response: a model error fails the session,
final-marker text completes it, other text loops, and a tool call is
dispatched before looping. Returns the final session and the number of
model calls made. -/
def runFrom (isFinal : String → Bool) (respond : Nat → ModelResponse)
    (exec : String → List (String × String) → ToolResult) :
    Nat → OrchSession → OrchSession × Nat
  | 0, sess => ({ sess with state := SessionState.Failed }, 0)
  | remaining + 1, sess =>
    let sess1 : OrchSession := { sess with turnCount := sess.turnCount + 1 }
    match respond sess.turnCount with
    | ModelResponse.modelError => ({ sess1 with state := SessionState.Failed }, 1)
    | ModelResponse.text t =>
      let sess2 : OrchSession := { sess1 with history := sess1.history ++ [Turn.mk "model" t] }
      if isFinal t then ({ sess2 with state := SessionState.Complete }, 1)
      else
        let r := runFrom isFinal respond exec remaining
          { sess2 with state := SessionState.AwaitingModel }
        (r.1, r.2 + 1)
    | ModelResponse.toolCall req =>
      let sess2 : OrchSession := { sess1 with history := sess1.history ++ [Turn.mk "model" req.name] }
      let r := runFrom isFinal respond exec remaining (dispatchTool exec req sess2).1
      (r.1, r.2 + 1)

/-- Modelled from the spec: the turn loop run under the configured
maximum turn count, starting from the session's current turn counter. -/
def runLoop (maxTurns : Nat) (isFinal : String → Bool) (respond : Nat → ModelResponse)
    (exec : String → List (String × String) → ToolResult)
    (sess : OrchSession) : OrchSession × Nat :=
  runFrom isFinal respond exec (maxTurns - sess.turnCount) sess

/-- A concrete tool-capability table used to exercise the theorems: every
known tool succeeds with a fixed payload. -/
def sampleExec : String → List (String × String) → ToolResult :=
  fun n _ => ToolResult.mk n true "ok"

/-- A concrete model stub used to exercise the theorems: it always
answers with more free-text reasoning and never a final answer. -/
def sampleRespond : Nat → ModelResponse :=
  fun _ => ModelResponse.text "scanning the skyline"

/-- A concrete session mid-dispatch used to exercise the theorems. -/
def sampleSession : OrchSession :=
  OrchSession.mk [Turn.mk "user" "investigate"] SessionState.DispatchingTool 3

/-- A concrete freshly started session: empty history, awaiting the
model, no model calls made yet. -/
def freshSession : OrchSession :=
  OrchSession.mk [] SessionState.AwaitingModel 0

/-! ## Helper lemmas -/

/-- Processing one WebSocket message appends exactly the entry read off
the matching onmessage branch. -/
theorem onmessage_logs (ts : String) (msg : ServerMessage) (s : ObserverState) :
    (onmessage ts msg s).logs = s.logs ++ [logEntryOf ts msg] := by
  by_cases h1 : msg.type = "new_image" <;>
    by_cases h2 : msg.type = "session_end" <;>
      simp [onmessage, logEntryOf, addLog, h1, h2]

/-- Unfolding one step of processMessages. -/
theorem processMessages_cons (p : String × ServerMessage)
    (msgs : List (String × ServerMessage)) (s : ObserverState) :
    processMessages (p :: msgs) s = processMessages msgs (onmessage p.1 p.2 s) := by
  simp [processMessages]

/-- Clamping is the identity on a region that already lies within the
image bounds with at least 1-pixel extent per axis. -/
theorem clampRegion_eq_self (tw th : ℚ) (r : Region)
    (hx : 0 ≤ r.x) (hy : 0 ≤ r.y) (hw : 1 ≤ r.w) (hh : 1 ≤ r.h)
    (hxw : r.x + r.w ≤ tw) (hyh : r.y + r.h ≤ th) :
    clampRegion tw th r = r := by
  have e1 : max 0 (min r.x (tw - 1)) = r.x := by
    rw [min_eq_left (by linarith), max_eq_right hx]
  have e2 : max 0 (min r.y (th - 1)) = r.y := by
    rw [min_eq_left (by linarith), max_eq_right hy]
  simp only [clampRegion, e1, e2]
  rw [min_eq_left (by linarith), min_eq_left (by linarith),
    max_eq_right hw, max_eq_right hh]

/-- The clamped region always lies within the image bounds and has at
least 1-pixel extent per axis, whatever region was requested. -/
theorem clampRegion_bounds (tw th : ℚ) (r : Region) (h1 : 1 ≤ tw) (h2 : 1 ≤ th) :
    0 ≤ (clampRegion tw th r).x ∧ 0 ≤ (clampRegion tw th r).y ∧
    1 ≤ (clampRegion tw th r).w ∧ 1 ≤ (clampRegion tw th r).h ∧
    (clampRegion tw th r).x + (clampRegion tw th r).w ≤ tw ∧
    (clampRegion tw th r).y + (clampRegion tw th r).h ≤ th := by
  have hx1 : max 0 (min r.x (tw - 1)) ≤ tw - 1 :=
    max_le (by linarith) (min_le_right _ _)
  have hy1 : max 0 (min r.y (th - 1)) ≤ th - 1 :=
    max_le (by linarith) (min_le_right _ _)
  have hw1 : max 1 (min r.w (tw - max 0 (min r.x (tw - 1)))) ≤
      tw - max 0 (min r.x (tw - 1)) :=
    max_le (by linarith) (min_le_right _ _)
  have hh1 : max 1 (min r.h (th - max 0 (min r.y (th - 1)))) ≤
      th - max 0 (min r.y (th - 1)) :=
    max_le (by linarith) (min_le_right _ _)
  refine ⟨le_max_left _ _, le_max_left _ _, le_max_left _ _, le_max_left _ _, ?_, ?_⟩
  · show max 0 (min r.x (tw - 1)) +
      max 1 (min r.w (tw - max 0 (min r.x (tw - 1)))) ≤ tw
    linarith
  · show max 0 (min r.y (th - 1)) +
      max 1 (min r.h (th - max 0 (min r.y (th - 1)))) ≤ th
    linarith

/-- Under a model that never produces a final marker and never errors,
the loop runs its whole remaining budget: it makes exactly one model
call per unit of budget and ends Failed. -/
theorem runFrom_no_final_no_error (isFinal : String → Bool) (respond : Nat → ModelResponse)
    (exec : String → List (String × String) → ToolResult)
    (hfin : ∀ k t, respond k = ModelResponse.text t → isFinal t = false)
    (herr : ∀ k, respond k ≠ ModelResponse.modelError) :
    ∀ rem sess, (runFrom isFinal respond exec rem sess).1.state = SessionState.Failed ∧
      (runFrom isFinal respond exec rem sess).2 = rem := by
  intro rem
  induction rem with
  | zero => intro sess; exact ⟨rfl, rfl⟩
  | succ n ih =>
    intro sess
    cases hr : respond sess.turnCount with
    | modelError => exact absurd hr (herr _)
    | text t =>
      have hf : isFinal t = false := hfin _ _ hr
      simp [runFrom, hr, hf, ih]
    | toolCall req =>
      simp [runFrom, hr, ih]

/-! ## Claims about the observer -/

/-- C5: starting an investigation first POSTs the image to the upload
boundary, takes the file_path field of the response as the image
reference, and then sends the single WebSocket message carrying that
file_path; when no image is selected or the connection flag is down, no
action at all is performed and no session-start message is sent. -/
theorem session_start_protocol (outcome : UploadOutcome) (ts : String) (s : ObserverState) :
    ((s.imageFile = none ∨ s.connected = false) →
      startInvestigation outcome ts s = (s, [])) ∧
    (∀ file fp, s.imageFile = some file → s.connected = true →
      (startInvestigation (UploadOutcome.success fp) ts s).2 =
        [ObserverAction.httpUpload file, ObserverAction.wsSend (SessionStartMsg.mk fp)]) := by
  constructor
  · intro h
    rcases h with h | h
    · simp [startInvestigation, h]
    · cases himg : s.imageFile <;> simp [startInvestigation, himg, h]
  · intro file fp h1 h2
    simp [startInvestigation, h1, h2]

/-- Witness for C5 at a concrete connected state with a selected image. -/
theorem session_start_protocol_witness :
    (startInvestigation (UploadOutcome.success "/uploads/img.png") "t2" sampleObserver).2 =
      [ObserverAction.httpUpload "street.jpg",
       ObserverAction.wsSend (SessionStartMsg.mk "/uploads/img.png")] :=
  (session_start_protocol (UploadOutcome.success "/uploads/img.png") "t2" sampleObserver).2
    "street.jpg" "/uploads/img.png" rfl rfl

/-- C6: the observer dispatches on the event kind of each stream message:
new_image stores the origin-resolved URL as the displayed derived image
and appends one tool_result log entry; session_end ends loading and
appends one system entry carrying the event content; every other kind
appends one entry of that kind carrying its content. -/
theorem observer_event_dispatch (ts : String) (msg : ServerMessage) (s : ObserverState) :
    (msg.type = "new_image" →
      onmessage ts msg s =
        { s with zoomedImage := some (serverOrigin ++ msg.url),
                 logs := s.logs ++ [LogItem.mk "tool_result" "Received High-Res Crop." ts] }) ∧
    (msg.type = "session_end" →
      onmessage ts msg s =
        { s with loading := false,
                 logs := s.logs ++ [LogItem.mk "system" msg.content ts] }) ∧
    (msg.type ∉ ["new_image", "session_end"] →
      onmessage ts msg s =
        { s with logs := s.logs ++ [LogItem.mk msg.type msg.content ts] }) := by
  refine ⟨fun h => ?_, fun h => ?_, fun h => ?_⟩
  · simp [onmessage, addLog, h]
  · simp [onmessage, addLog, h]
  · simp only [List.mem_cons, List.not_mem_nil, or_false, not_or] at h
    simp [onmessage, addLog, h.1, h.2]

/-- Witness for C6 at a concrete new_image message. -/
theorem observer_event_dispatch_witness :
    onmessage "t1" (ServerMessage.mk "new_image" "" "/crops/1.png") sampleObserver =
      { sampleObserver with
          zoomedImage := some (serverOrigin ++ "/crops/1.png"),
          logs := sampleObserver.logs ++
            [LogItem.mk "tool_result" "Received High-Res Crop." "t1"] } :=
  (observer_event_dispatch "t1" (ServerMessage.mk "new_image" "" "/crops/1.png")
    sampleObserver).1 rfl

/-- C7: starting a new investigation on a connection discards the prior
session state: before the upload request is issued the log list is reset
to empty and the previously displayed derived image is cleared, so the
outcome never depends on the prior logs or zoomed image. -/
theorem new_investigation_discards_prior (outcome : UploadOutcome) (ts : String)
    (s : ObserverState) (file : String)
    (h1 : s.imageFile = some file) (h2 : s.connected = true) :
    (startInvestigationBegin s).logs = [] ∧
    (startInvestigationBegin s).zoomedImage = none ∧
    startInvestigation outcome ts s =
      startInvestigation outcome ts { s with logs := [], zoomedImage := none } := by
  refine ⟨rfl, rfl, ?_⟩
  cases outcome <;> simp [startInvestigation, startInvestigationBegin, addLog, h1, h2]

/-- Witness for C7 at a concrete state carrying a prior log and a prior
zoomed image. -/
theorem new_investigation_discards_prior_witness :
    (startInvestigationBegin sampleObserver).logs = [] ∧
    (startInvestigationBegin sampleObserver).zoomedImage = none ∧
    startInvestigation (UploadOutcome.success "/uploads/img.png") "t2" sampleObserver =
      startInvestigation (UploadOutcome.success "/uploads/img.png") "t2"
        { sampleObserver with logs := [], zoomedImage := none } :=
  new_investigation_discards_prior (UploadOutcome.success "/uploads/img.png") "t2"
    sampleObserver "street.jpg" rfl rfl

/-- C8: the observer log projection of a stream of messages: every
received message appends exactly one entry, in arrival order, on top of
the existing log list — nothing is dropped, duplicated or reordered. -/
theorem observer_log_append_only (msgs : List (String × ServerMessage)) (s : ObserverState) :
    (processMessages msgs s).logs = s.logs ++ msgs.map (fun p => logEntryOf p.1 p.2) := by
  induction msgs generalizing s with
  | nil => simp [processMessages]
  | cons p rest ih =>
    rw [processMessages_cons, ih, onmessage_logs]
    simp

/-- C10: connect is idempotent on an open connection: when the current
socket is in the OPEN state, connect returns at once, creates no new
socket, and leaves the whole observer state (logs and connected flag
included) unchanged. -/
theorem connect_idempotent_on_open (fresh : WebSocketConn) (s : ObserverState)
    (w : WebSocketConn) (hw : s.ws = some w) (hopen : w.readyState = WS_OPEN) :
    connect fresh s = (s, false) := by
  simp [connect, hw, hopen]

/-- Witness for C10 at a concrete state holding an OPEN socket. -/
theorem connect_idempotent_on_open_witness :
    connect (WebSocketConn.mk 5 0) sampleObserver = (sampleObserver, false) :=
  connect_idempotent_on_open (WebSocketConn.mk 5 0) sampleObserver
    (WebSocketConn.mk 0 1) rfl rfl

/-! ## Claims about the orchestration core -/

/-- C1: the executed pixel region of a crop is the per-axis proportional
mapping true_coord = model_coord * (true_dimension / shown_dimension) of
the model-space region (whenever that mapped region lies within the
source bounds, so the final clamp is the identity); in particular the
region x 0, y 0, w 100, h 100 shown at 500x500 against a 2000x2000
source covers exactly the pixel region x 0, y 0, w 400, h 400. -/
theorem crop_proportional_mapping (shownW shownH : ℚ) (src : ImageRef) (r : Region)
    (hx : 0 ≤ (rescaleRegion shownW shownH src.width src.height r).x)
    (hy : 0 ≤ (rescaleRegion shownW shownH src.width src.height r).y)
    (hw : 1 ≤ (rescaleRegion shownW shownH src.width src.height r).w)
    (hh : 1 ≤ (rescaleRegion shownW shownH src.width src.height r).h)
    (hxw : (rescaleRegion shownW shownH src.width src.height r).x +
      (rescaleRegion shownW shownH src.width src.height r).w ≤ src.width)
    (hyh : (rescaleRegion shownW shownH src.width src.height r).y +
      (rescaleRegion shownW shownH src.width src.height r).h ≤ src.height) :
    cropExecutedRegion shownW shownH src r =
      rescaleRegion shownW shownH src.width src.height r ∧
    (cropExecutedRegion shownW shownH src r).x = r.x * (src.width / shownW) ∧
    (cropExecutedRegion shownW shownH src r).y = r.y * (src.height / shownH) ∧
    (cropExecutedRegion shownW shownH src r).w = r.w * (src.width / shownW) ∧
    (cropExecutedRegion shownW shownH src r).h = r.h * (src.height / shownH) ∧
    cropExecutedRegion 500 500 (ImageRef.mk "src.png" 2000 2000) (Region.mk 0 0 100 100) =
      Region.mk 0 0 400 400 := by
  have hmain : cropExecutedRegion shownW shownH src r =
      rescaleRegion shownW shownH src.width src.height r :=
    clampRegion_eq_self _ _ _ hx hy hw hh hxw hyh
  refine ⟨hmain, ?_, ?_, ?_, ?_,
    by norm_num [cropExecutedRegion, clampRegion, rescaleRegion, rescaleCoord,
      min_def, max_def]⟩ <;> rw [hmain] <;> rfl

/-- Witness for C1 at the 4x-rescale example of the spec. -/
theorem crop_proportional_mapping_witness :
    cropExecutedRegion 500 500 (ImageRef.mk "src.png" 2000 2000) (Region.mk 0 0 100 100) =
      rescaleRegion 500 500 2000 2000 (Region.mk 0 0 100 100) :=
  (crop_proportional_mapping 500 500 (ImageRef.mk "src.png" 2000 2000)
    (Region.mk 0 0 100 100)
    (by norm_num [rescaleRegion, rescaleCoord])
    (by norm_num [rescaleRegion, rescaleCoord])
    (by norm_num [rescaleRegion, rescaleCoord])
    (by norm_num [rescaleRegion, rescaleCoord])
    (by norm_num [rescaleRegion, rescaleCoord])
    (by norm_num [rescaleRegion, rescaleCoord])).1

/-- C2: dispatching a ToolCallRequest whose name the Tool Registry does
not know neither raises nor terminates the session: it produces exactly
one ToolResult marked failure carrying an explanatory payload, appends
one tool turn, emits one tool_result event, and leaves the session in
AwaitingModel. -/
theorem unknown_tool_recovers (exec : String → List (String × String) → ToolResult)
    (req : ToolCallRequest) (sess : OrchSession) (h : req.name ∉ knownToolNames) :
    (dispatchTool exec req sess).1.state = SessionState.AwaitingModel ∧
    (dispatchTool exec req sess).2.2 =
      [ToolResult.mk req.name false ("Unknown tool: " ++ req.name)] ∧
    (dispatchTool exec req sess).1.history =
      sess.history ++ [Turn.mk "tool" ("Unknown tool: " ++ req.name)] ∧
    (dispatchTool exec req sess).2.1 =
      [TranscriptEvent.mk "tool_result" ("Unknown tool: " ++ req.name)] := by
  simp [dispatchTool, executeTool, h]

/-- Witness for C2 at the unknown tool name teleport. -/
theorem unknown_tool_recovers_witness :
    (dispatchTool sampleExec (ToolCallRequest.mk "teleport" []) sampleSession).1.state =
      SessionState.AwaitingModel ∧
    (dispatchTool sampleExec (ToolCallRequest.mk "teleport" []) sampleSession).2.2 =
      [ToolResult.mk "teleport" false ("Unknown tool: " ++ "teleport")] ∧
    (dispatchTool sampleExec (ToolCallRequest.mk "teleport" []) sampleSession).1.history =
      sampleSession.history ++ [Turn.mk "tool" ("Unknown tool: " ++ "teleport")] ∧
    (dispatchTool sampleExec (ToolCallRequest.mk "teleport" []) sampleSession).2.1 =
      [TranscriptEvent.mk "tool_result" ("Unknown tool: " ++ "teleport")] :=
  unknown_tool_recovers sampleExec (ToolCallRequest.mk "teleport" []) sampleSession (by decide)

/-- C3: in a session whose model never produces a recognized final-answer
marker and never errors, the turn loop ends Failed exactly at the
configured turn limit: it makes exactly maxTurns minus the starting turn
counter model calls — never more than maxTurns, so with limit N the
call numbered N+1 never occurs. -/
theorem turn_limit_forces_failed (maxTurns : Nat) (isFinal : String → Bool)
    (respond : Nat → ModelResponse)
    (exec : String → List (String × String) → ToolResult) (sess : OrchSession)
    (hfin : ∀ k t, respond k = ModelResponse.text t → isFinal t = false)
    (herr : ∀ k, respond k ≠ ModelResponse.modelError) :
    (runLoop maxTurns isFinal respond exec sess).1.state = SessionState.Failed ∧
    (runLoop maxTurns isFinal respond exec sess).2 = maxTurns - sess.turnCount ∧
    (runLoop maxTurns isFinal respond exec sess).2 ≤ maxTurns := by
  have h := runFrom_no_final_no_error isFinal respond exec hfin herr
    (maxTurns - sess.turnCount) sess
  exact ⟨h.1, h.2, h.2 ▸ Nat.sub_le _ _⟩

/-- Witness for C3: with the limit configured to 10 and a model stub that
always keeps reasoning, a fresh session makes exactly 10 model calls and
ends Failed. -/
theorem turn_limit_forces_failed_witness :
    (runLoop 10 (fun _ => false) sampleRespond sampleExec freshSession).1.state =
      SessionState.Failed ∧
    (runLoop 10 (fun _ => false) sampleRespond sampleExec freshSession).2 =
      10 - freshSession.turnCount ∧
    (runLoop 10 (fun _ => false) sampleRespond sampleExec freshSession).2 ≤ 10 :=
  turn_limit_forces_failed 10 (fun _ => false) sampleRespond sampleExec freshSession
    (fun _ _ _ => rfl) (fun _ h => ModelResponse.noConfusion h)

/-- C4: however far outside the source bounds (or negative, or
degenerate) the requested region is, the crop tool clamps it to a valid
sub-region of at least 1-pixel extent inside the source and returns a
derived ImageReference with success: the session never fails and no
empty-image error can arise. -/
theorem crop_clamp_safe (shownW shownH : ℚ) (src : ImageRef) (r : Region)
    (h1 : 1 ≤ src.width) (h2 : 1 ≤ src.height) :
    (0 ≤ (cropExecutedRegion shownW shownH src r).x ∧
     0 ≤ (cropExecutedRegion shownW shownH src r).y ∧
     1 ≤ (cropExecutedRegion shownW shownH src r).w ∧
     1 ≤ (cropExecutedRegion shownW shownH src r).h ∧
     (cropExecutedRegion shownW shownH src r).x +
       (cropExecutedRegion shownW shownH src r).w ≤ src.width ∧
     (cropExecutedRegion shownW shownH src r).y +
       (cropExecutedRegion shownW shownH src r).h ≤ src.height) ∧
    (cropTool shownW shownH src r).1.success = true := by
  exact ⟨clampRegion_bounds src.width src.height
    (rescaleRegion shownW shownH src.width src.height r) h1 h2, rfl⟩

/-- Witness for C4 at a request entirely outside a 2000x2000 source,
with negative corner and degenerate extent. -/
theorem crop_clamp_safe_witness :
    (0 ≤ (cropExecutedRegion 500 500 (ImageRef.mk "src.png" 2000 2000)
        (Region.mk (-500) 3000 (-10) 0)).x ∧
     0 ≤ (cropExecutedRegion 500 500 (ImageRef.mk "src.png" 2000 2000)
        (Region.mk (-500) 3000 (-10) 0)).y ∧
     1 ≤ (cropExecutedRegion 500 500 (ImageRef.mk "src.png" 2000 2000)
        (Region.mk (-500) 3000 (-10) 0)).w ∧
     1 ≤ (cropExecutedRegion 500 500 (ImageRef.mk "src.png" 2000 2000)
        (Region.mk (-500) 3000 (-10) 0)).h ∧
     (cropExecutedRegion 500 500 (ImageRef.mk "src.png" 2000 2000)
        (Region.mk (-500) 3000 (-10) 0)).x +
       (cropExecutedRegion 500 500 (ImageRef.mk "src.png" 2000 2000)
        (Region.mk (-500) 3000 (-10) 0)).w ≤ (ImageRef.mk "src.png" 2000 2000).width ∧
     (cropExecutedRegion 500 500 (ImageRef.mk "src.png" 2000 2000)
        (Region.mk (-500) 3000 (-10) 0)).y +
       (cropExecutedRegion 500 500 (ImageRef.mk "src.png" 2000 2000)
        (Region.mk (-500) 3000 (-10) 0)).h ≤ (ImageRef.mk "src.png" 2000 2000).height) ∧
    (cropTool 500 500 (ImageRef.mk "src.png" 2000 2000)
      (Region.mk (-500) 3000 (-10) 0)).1.success = true :=
  crop_clamp_safe 500 500 (ImageRef.mk "src.png" 2000 2000)
    (Region.mk (-500) 3000 (-10) 0) (by norm_num) (by norm_num)

end Recon
